import Mathlib

/-!
# Verification of the Solidity-VRF commit-reveal system

Shallow embedding of the repository's core:

* `CommitRevealVRF.sol` (the on-ledger commit-reveal state machine):
  `commit`, `_reveal`, `reveal`, `multiReveal`, the `commits` mapping and
  the emitted events, over a symbolic (free-algebra) model of `keccak256`.
* `listener.ts` (the relayer): the `block` handler that drains the pending
  map and the `SeedCommitted` event handler that schedules reveals.
* `event-fetcher.ts` (the ledger watcher): one polling cycle of
  `_eventFetcher` / `_handleBlock` with its cursor updates.

Machine integers are modelled as `Nat` with explicit `% 2 ^ w` where the
source truncates (the `uint96` cast on the stored block number).  Reverting
Solidity calls are modelled with `Except`: an error result corresponds to a
reverted transaction, which retains no state change, no event and no
callback — `applyMultiReveal` below makes that transaction-level rollback
explicit.
-/

namespace VRF

/-- Symbolic model of 32-byte words and of every `keccak256` application
occurring in `CommitRevealVRF.sol`.  Each `kec…` constructor stands for
`keccak256(abi.encodePacked(…))` at one particular argument shape used by
the contract; the free-algebra (collision-free) reading of the hash makes
each constructor injective, which is the standard symbolic model of a
cryptographic hash. -/
inductive B32 where
  /-- An arbitrary literal 32-byte value. -/
  | raw : Nat → B32
  /-- `keccak256(abi.encodePacked(x))` for a single `bytes32` `x`. -/
  | kec1 : B32 → B32
  /-- `keccak256(abi.encodePacked(b1, b2, addr, n))` — the commit id shape. -/
  | kec4 : B32 → B32 → Nat → Nat → B32
  /-- `keccak256(abi.encodePacked(b1, b2, b3))` — the random-seed shape. -/
  | kec3 : B32 → B32 → B32 → B32
  /-- `toEthSignedMessageHash(x)`. -/
  | ethMsg : B32 → B32
deriving DecidableEq, Repr

/-- The `Commit` struct of `ICommitRevealVRF.sol`: user seed, operator seed
hash, owner address and the stored (already confirmed-shifted) block
number.  Addresses are modelled as `Nat`. -/
structure Commit where
  userSeed : B32
  operatorSeedHash : B32
  commitOwner : Nat
  commitBlock : Nat
deriving DecidableEq, Repr

/-- The all-zero struct a Solidity mapping returns for an absent key. -/
def Commit.zero : Commit := ⟨B32.raw 0, B32.raw 0, 0, 0⟩

/-- The `commits` mapping, as an association list read through
`lookupCommit` (first binding wins, absent keys read as `Commit.zero`,
exactly the Solidity storage semantics). -/
abbrev CommitMap := List (B32 × Commit)

/-- Mapping read: `commits[commitId]`. -/
def lookupCommit : CommitMap → B32 → Commit
  | [], _ => Commit.zero
  | (k', v) :: rest, k => if k' = k then v else lookupCommit rest k

/-- Remove every binding of a key: `delete commits[commitId]`. -/
def removeCommit : CommitMap → B32 → CommitMap
  | [], _ => []
  | (k', v) :: rest, k =>
      if k' = k then removeCommit rest k else (k', v) :: removeCommit rest k

/-- Mapping write: `commits[commitId] = c`. -/
def setCommit (m : CommitMap) (k : B32) (v : Commit) : CommitMap :=
  (k, v) :: removeCommit m k

/-- Contract storage of `CommitRevealVRF`: the immutable `CONFIRMATIONS`,
the `commits` mapping, and the two `AccessControl` role sets granted by the
constructor. -/
structure VRFState where
  confirmations : Nat
  commits : CommitMap
  operators : List Nat
  admins : List Nat
deriving DecidableEq, Repr

/-- The constructor: grants `DEFAULT_ADMIN_ROLE` to the deployer and
`OPERATOR_ROLE` to `operator`, and stores `CONFIRMATIONS`.  It performs no
validation: any `uint8` value, `0` included, is accepted. -/
def deployVRF (deployer operator : Nat) (confirmations : Nat) : VRFState :=
  { confirmations := confirmations % 2 ^ 8
    commits := []
    operators := [operator]
    admins := [deployer] }

/-- The custom errors of `ICommitRevealVRF.sol`, plus the
`AccessControl` revert raised by the `onlyRole` modifier. -/
inductive VRFError where
  | CommitAlreadyExists (commitId : B32)
  | CommitDoesNotExist (commitId : B32)
  | ExpiredCommitSignature (commitId : B32)
  | InvalidCommitSignature (commitId : B32)
  | InvalidRevealBlock (commitId : B32) (commitBlock revealBlock : Nat)
  | InvalidOperatorSeed (commitId : B32) (operatorSeedHash operatorSeed : B32)
  | MissingOperatorRole (account : Nat)
deriving DecidableEq, Repr

/-- The events of `ICommitRevealVRF.sol`. -/
inductive VRFEvent where
  | SeedCommitted (commitId userSeed operatorSeedHash : B32) (commitOwner : Nat)
  | SeedRevealed (commitId operatorSeed randomSeed : B32)
deriving DecidableEq, Repr

/-- Transaction environment: `msg.sender`, `block.number`,
`block.timestamp`, the chain's `blockhash` view, and ECDSA recovery
(`hash.toEthSignedMessageHash().recover(signature)`), kept abstract as a
function from message hash and signature to recovered address. -/
structure Env where
  sender : Nat
  blockNumber : Nat
  timestamp : Nat
  blockhashOf : Nat → B32
  recover : B32 → Nat → Nat

/-- `CommitRevealVRF.commit`.  Computes
`operatorDataHash = keccak256(keccak256(userSeed), operatorSeedHash,
msg.sender, expiration)`, checks duplicate, expiration and signature in
that order, then stores the record with
`commitBlock = uint96(block.number + CONFIRMATIONS)` and emits
`SeedCommitted(commitId, userSeed, operatorSeedHash, msg.sender)`.
Returns the new state, the emitted events and the commit id. -/
def commitFn (env : Env) (s : VRFState) (userSeed operatorSeedHash : B32)
    (expiration : Nat) (signature : Nat) :
    Except VRFError (VRFState × List VRFEvent × B32) :=
  let operatorDataHash :=
    B32.kec4 (B32.kec1 userSeed) operatorSeedHash env.sender expiration
  if (lookupCommit s.commits operatorDataHash).commitBlock ≠ 0 then
    .error (.CommitAlreadyExists operatorDataHash)
  else if env.timestamp > expiration then
    .error (.ExpiredCommitSignature operatorDataHash)
  else
    let signer := env.recover (B32.ethMsg operatorDataHash) signature
    if ¬ signer ∈ s.operators then
      .error (.InvalidCommitSignature operatorDataHash)
    else
      let record : Commit :=
        { userSeed := userSeed
          operatorSeedHash := operatorSeedHash
          commitOwner := env.sender
          commitBlock := (env.blockNumber + s.confirmations) % 2 ^ 96 }
      .ok ({ s with commits := setCommit s.commits operatorDataHash record },
           [.SeedCommitted operatorDataHash userSeed operatorSeedHash env.sender],
           operatorDataHash)

/-- Transaction-level view of `commit`: a reverted call leaves the state
unchanged and emits nothing. -/
def applyCommit (env : Env) (s : VRFState) (userSeed operatorSeedHash : B32)
    (expiration : Nat) (signature : Nat) : VRFState × List VRFEvent :=
  match commitFn env s userSeed operatorSeedHash expiration signature with
  | .ok (s', evs, _) => (s', evs)
  | .error _ => (s, [])

/-- `CommitRevealVRF._reveal`.  Checks existence, reveal block and operator
seed in that order, computes
`randomSeed = keccak256(userSeed, operatorSeed, blockhash(block.number - 1))`,
deletes the record, emits `SeedRevealed` and invokes
`revealCallback(commitId, randomSeed)`.  Returns the new state, the emitted
events and the callback invocations (the callback runs after the delete,
on the already-updated state). -/
def _reveal (env : Env) (s : VRFState) (commitId operatorSeed : B32) :
    Except VRFError (VRFState × List VRFEvent × List (B32 × B32)) :=
  if (lookupCommit s.commits commitId).commitBlock = 0 then
    .error (.CommitDoesNotExist commitId)
  else
    let c := lookupCommit s.commits commitId
    if env.blockNumber < c.commitBlock then
      .error (.InvalidRevealBlock commitId c.commitBlock env.blockNumber)
    else if B32.kec1 operatorSeed ≠ c.operatorSeedHash then
      .error (.InvalidOperatorSeed commitId c.operatorSeedHash operatorSeed)
    else
      let randomSeed :=
        B32.kec3 c.userSeed operatorSeed (env.blockhashOf (env.blockNumber - 1))
      .ok ({ s with commits := removeCommit s.commits commitId },
           [.SeedRevealed commitId operatorSeed randomSeed],
           [(commitId, randomSeed)])

/-- `CommitRevealVRF.reveal`: the `onlyRole(OPERATOR_ROLE)` guard followed
by `_reveal`. -/
def reveal (env : Env) (s : VRFState) (commitId operatorSeed : B32) :
    Except VRFError (VRFState × List VRFEvent × List (B32 × B32)) :=
  if ¬ env.sender ∈ s.operators then .error (.MissingOperatorRole env.sender)
  else _reveal env s commitId operatorSeed

/-- The loop body of `CommitRevealVRF.multiReveal`: `_reveal` on each entry
in order, threading the state and accumulating events and callbacks; the
first revert aborts the whole call. -/
def revealSeq (env : Env) (s : VRFState) :
    List (B32 × B32) → Except VRFError (VRFState × List VRFEvent × List (B32 × B32))
  | [] => .ok (s, [], [])
  | r :: rs => do
      let (s', evs, cbs) ← _reveal env s r.1 r.2
      let (s'', evs', cbs') ← revealSeq env s' rs
      return (s'', evs ++ evs', cbs ++ cbs')

/-- `CommitRevealVRF.multiReveal`: the `onlyRole(OPERATOR_ROLE)` guard
followed by the loop over `_reveal`. -/
def multiReveal (env : Env) (s : VRFState) (rs : List (B32 × B32)) :
    Except VRFError (VRFState × List VRFEvent × List (B32 × B32)) :=
  if ¬ env.sender ∈ s.operators then .error (.MissingOperatorRole env.sender)
  else revealSeq env s rs

/-- Transaction-level view of `multiReveal`: a reverted call (any entry
failing) leaves the state unchanged, emits no event, and invokes no
callback — the EVM rolls the whole transaction back. -/
def applyMultiReveal (env : Env) (s : VRFState) (rs : List (B32 × B32)) :
    VRFState × List VRFEvent × List (B32 × B32) :=
  match multiReveal env s rs with
  | .ok out => out
  | .error _ => (s, [], [])

end VRF

namespace Listener

/-- The `PendingCommit` record of `listener.ts`: the cached operator seed
and the block number from which the reveal may be submitted.  Commit ids
and seeds are opaque strings at this layer; they are modelled as `Nat`. -/
structure PendingCommit where
  operatorSeed : Nat
  confirmationBlock : Nat
deriving DecidableEq, Repr

/-- The `pendingCommits` object of `listener.ts`, in insertion order (the
iteration order of `for … in` over its non-numeric string keys). -/
abbrev PendingMap := List (Nat × PendingCommit)

/-- JS object upsert `pendingCommits[commitId] = pc`: replace in place if
the key exists, append otherwise. -/
def setPending : PendingMap → Nat → PendingCommit → PendingMap
  | [], k, v => [(k, v)]
  | (k', v') :: rest, k, v =>
      if k' = k then (k, v) :: rest else (k', v') :: setPending rest k v

/-- The `block` handler of `listener.ts`.  For each pending entry in
iteration order whose `confirmationBlock <= blockNumber`, it awaits
`revealCommit`; the `delete` of the entry sits inside the `try` after that
await, so the entry is deleted only when the attempt succeeds — a failed
attempt is caught, logged and the entry stays in the map.  `attempt`
models whether `revealCommit` resolves (`true`) or throws (`false`).
Returns the updated map and the list of attempts made, in order. -/
def blockHandler (attempt : Nat → Nat → Bool) (blockNumber : Nat) :
    PendingMap → PendingMap × List (Nat × Nat)
  | [] => ([], [])
  | (cid, pc) :: rest =>
      let tail := blockHandler attempt blockNumber rest
      if pc.confirmationBlock ≤ blockNumber then
        (if attempt cid pc.operatorSeed then tail.1 else (cid, pc) :: tail.1,
         (cid, pc.operatorSeed) :: tail.2)
      else ((cid, pc) :: tail.1, tail.2)

/-- The `SeedCommitted` event handler of `listener.ts`.  Looks the commit
id up in the Redis cache (`cacheGet`); a miss throws, which the handler
catches — the commitment is dropped silently.  On a hit it submits the
reveal immediately when
`blockNumber >= event.blockNumber + (confirmations - 1)` and otherwise
inserts a pending entry with
`confirmationBlock = event.blockNumber + (confirmations - 1)`.  Returns
the updated map and the immediate reveal attempts made. -/
def eventHandler (cacheGet : Nat → Option Nat) (confirmations : Nat)
    (blockNumber eventBlockNumber : Nat) (cid : Nat) (pending : PendingMap) :
    PendingMap × List (Nat × Nat) :=
  match cacheGet cid with
  | none => (pending, [])
  | some seed =>
      if eventBlockNumber + (confirmations - 1) ≤ blockNumber then
        (pending, [(cid, seed)])
      else
        (setPending pending cid ⟨seed, eventBlockNumber + (confirmations - 1)⟩, [])

/-- The error message thrown by `listener` for a missing or invalid
contract address. -/
def addressErrorMsg : String := "You must specify a valid contract address."

/-- The error message thrown by `listener` for `confirmations` equal to
`0` (JS falsy check). -/
def confirmationsErrorMsg : String :=
  "You must specify the number of confirmations required to approve a commit (Minimum 1 block)."

/-- The argument validation at the top of `listener`
(`if (!address || !ethers.isAddress(address)) throw …;`
`if (!confirmations) throw …`).  `isAddr` models the external
`ethers.isAddress` predicate.  Both throws happen before the
`EventFetcher` is created and before any handler is registered, so an
error result carries no listener state; success returns the initial
(empty) pending map with the handlers in place. -/
def listenerInit (isAddr : String → Bool) (address : String)
    (confirmations : Nat) : Except String PendingMap :=
  if address = "" ∨ isAddr address = false then .error addressErrorMsg
  else if confirmations = 0 then .error confirmationsErrorMsg
  else .ok []

end Listener

namespace Fetcher

/-- The mutable fields of the `EventFetcher` class that drive its cursor:
`_firstBlock`, `_lastBlock` and `_liveBlock` (all `number | undefined`). -/
structure FetcherState where
  firstBlock : Option Nat
  lastBlock : Option Nat
  liveBlock : Option Nat
deriving DecidableEq, Repr

/-- JS falsiness of a `number | undefined`: `undefined` and `0` are
falsy. -/
def falsy : Option Nat → Bool
  | none => true
  | some n => n == 0

/-- Outcome of one polling cycle of `_eventFetcher`:
`stopped` — a 3-retry query bound was exhausted and `stop` was called;
`idle` — the next block is beyond the head, nothing handled this cycle;
`handled st b evs` — the `block` signal was emitted for height `b`, one
`event` signal per element of `evs` (in order), and the fields are now
`st`. -/
inductive CycleResult where
  | stopped
  | idle (st : FetcherState)
  | handled (st : FetcherState) (blockNumber : Nat) (events : List Nat)
deriving DecidableEq, Repr

/-- `EventFetcher._handleBlock`.  `eventsResult` is the outcome of
`_queryBlockEvents(blockNumber)` (`none` = three consecutive failures,
which stops the fetcher).  On success it emits the `block` signal for
`blockNumber`, the per-event signals, and then performs the source's
cursor update `this._lastBlock = this._liveBlock`. -/
def _handleBlock (st : FetcherState) (blockNumber : Nat)
    (eventsResult : Option (List Nat)) : CycleResult :=
  match eventsResult with
  | none => .stopped
  | some events =>
      .handled { st with lastBlock := st.liveBlock } blockNumber events

/-- The block-selection half of `EventFetcher._eventFetcher`, after the
head refresh: on the first run handle `_firstBlock` (defaulting it to the
head), otherwise handle `_lastBlock + 1` unless that exceeds the head. -/
def fetchStep (st : FetcherState) (eventsResult : Option (List Nat)) :
    CycleResult :=
  if falsy st.lastBlock then
    let fb := if falsy st.firstBlock then st.liveBlock else st.firstBlock
    _handleBlock { st with firstBlock := fb } (fb.getD 0) eventsResult
  else
    let blockToHandle := st.lastBlock.getD 0 + 1
    if blockToHandle > st.liveBlock.getD 0 then .idle st
    else _handleBlock st blockToHandle eventsResult

/-- One cycle of `EventFetcher._eventFetcher`.  `headResult` is the
outcome of `_queryBlockNumber()` (`none` = three consecutive failures),
consulted only when the cached head is falsy or already consumed; a falsy
result stops the fetcher. -/
def _eventFetcher (st : FetcherState) (headResult : Option Nat)
    (eventsResult : Option (List Nat)) : CycleResult :=
  if falsy st.lastBlock || falsy st.liveBlock ||
      st.lastBlock.getD 0 ≥ st.liveBlock.getD 0 then
    if falsy headResult then .stopped
    else fetchStep { st with liveBlock := headResult } eventsResult
  else fetchStep st eventsResult

end Fetcher

/-! ## Basic lemmas and decidability -/

instance {ε α : Type} [DecidableEq ε] [DecidableEq α] : DecidableEq (Except ε α) := fun a b =>
  match a, b with
  | .error e, .error e' => decidable_of_iff (e = e') (by simp)
  | .ok v, .ok v' => decidable_of_iff (v = v') (by simp)
  | .error _, .ok _ => isFalse fun h => Except.noConfusion h
  | .ok _, .error _ => isFalse fun h => Except.noConfusion h

namespace VRF

/-- A concrete transaction environment used in witnesses: operator sender
`1`, height `10`, time `50`, block hashes `raw (1000 + n)`, and a
recovery function that always yields address `1`. -/
def envA : Env :=
  { sender := 1, blockNumber := 10, timestamp := 50,
    blockhashOf := fun n => B32.raw (1000 + n), recover := fun _ _ => 1 }

/-- `envA` at height `20` (a later block, hence a different previous
block hash). -/
def envB : Env := { envA with blockNumber := 20 }

/-- A concrete contract state used in witnesses: `CONFIRMATIONS = 3`,
operator `1`, and one live commit under id `raw 100` with user seed
`raw 1`, operator seed hash `kec1 (raw 2)` and stored block `5`. -/
def stateA : VRFState :=
  { confirmations := 3
    commits := [(B32.raw 100, ⟨B32.raw 1, B32.kec1 (B32.raw 2), 7, 5⟩)]
    operators := [1], admins := [0] }

/-- A concrete environment for the `confirmations = 3`, commit at height
`100` scenario; `bn` is the current height. -/
def envScen (bn : Nat) : Env :=
  { sender := 7, blockNumber := bn, timestamp := 50,
    blockhashOf := fun n => B32.raw (1000 + n), recover := fun _ _ => 1 }

/-- The freshly deployed contract of the scenario: deployer `0`, operator
`1`, `CONFIRMATIONS = 3`. -/
def stateScen : VRFState := deployVRF 0 1 3

/-- The commit id of the scenario commit (`userSeed = raw 1`,
`operatorSeedHash = kec1 (raw 2)`, owner `7`, expiration `60`). -/
def idScen : B32 := B32.kec4 (B32.kec1 (B32.raw 1)) (B32.kec1 (B32.raw 2)) 7 60

/-- The contract state right after the scenario commit at height `100`:
the stored record carries `commitBlock = 100 + 3 = 103`. -/
def commitScenState : VRFState :=
  { stateScen with
      commits := [(idScen, ⟨B32.raw 1, B32.kec1 (B32.raw 2), 7, 103⟩)] }

/-- `envScen 100` with a recovery function yielding the non-operator
address `99` (an invalid signature). -/
def envBadSig : Env := { envScen 100 with recover := fun _ _ => 99 }

/-- `stateA` after its only commit has been revealed and deleted. -/
def stateA0 : VRFState := { stateA with commits := [] }

/-- The `SeedRevealed` event of revealing `stateA`'s commit at height
`10` (previous block hash `raw 1009`). -/
def ev1009 : VRFEvent :=
  .SeedRevealed (B32.raw 100) (B32.raw 2)
    (B32.kec3 (B32.raw 1) (B32.raw 2) (B32.raw 1009))

/-- The `SeedRevealed` event of revealing `stateA`'s commit at height
`20` (previous block hash `raw 1019`). -/
def ev1019 : VRFEvent :=
  .SeedRevealed (B32.raw 100) (B32.raw 2)
    (B32.kec3 (B32.raw 1) (B32.raw 2) (B32.raw 1019))

/-- The callback invocation paired with `ev1009`. -/
def cb1009 : B32 × B32 :=
  (B32.raw 100, B32.kec3 (B32.raw 1) (B32.raw 2) (B32.raw 1009))

/-- The callback invocation paired with `ev1019`. -/
def cb1019 : B32 × B32 :=
  (B32.raw 100, B32.kec3 (B32.raw 1) (B32.raw 2) (B32.raw 1019))

/-- After `delete commits[k]`, reading `commits[k]` yields the zero
struct. -/
theorem lookup_removeCommit_self (m : CommitMap) (k : B32) :
    lookupCommit (removeCommit m k) k = Commit.zero := by
  induction m with
  | nil => rfl
  | cons p rest ih =>
      obtain ⟨k', v⟩ := p
      by_cases h : k' = k
      · simpa [removeCommit, h] using ih
      · simpa [removeCommit, lookupCommit, h] using ih

/-- After `commits[k] = v`, reading `commits[k]` yields `v`. -/
theorem lookup_setCommit_self (m : CommitMap) (k : B32) (v : Commit) :
    lookupCommit (setCommit m k v) k = v := by
  simp [setCommit, lookupCommit]

/-- Anatomy of a successful `_reveal`: the record is deleted, and the
emitted event and callback carry
`randomSeed = keccak256(userSeed, operatorSeed, blockhash(block.number - 1))`
built from the record's stored fields. -/
theorem reveal_ok_parts (env : Env) (s : VRFState) (cid seed : B32)
    (t : VRFState) (evs : List VRFEvent) (cbs : List (B32 × B32))
    (h : _reveal env s cid seed = .ok (t, evs, cbs)) :
    t = { s with commits := removeCommit s.commits cid } ∧
    evs = [.SeedRevealed cid seed
      (B32.kec3 (lookupCommit s.commits cid).userSeed seed
        (env.blockhashOf (env.blockNumber - 1)))] ∧
    cbs = [(cid,
      B32.kec3 (lookupCommit s.commits cid).userSeed seed
        (env.blockhashOf (env.blockNumber - 1)))] := by
  by_cases h0 : (lookupCommit s.commits cid).commitBlock = 0
  · simp [_reveal, h0] at h
  · by_cases h1 : env.blockNumber < (lookupCommit s.commits cid).commitBlock
    · simp [_reveal, h0, h1] at h
    · by_cases h2 : B32.kec1 seed = (lookupCommit s.commits cid).operatorSeedHash
      · simp only [_reveal, h0, h1, h2, if_false, if_neg, ne_eq, not_true_eq_false,
          not_false_eq_true, ite_false, ite_true, Except.ok.injEq, Prod.mk.injEq] at h
        obtain ⟨hs, hevs, hcbs⟩ := h
        exact ⟨hs.symm, hevs.symm, hcbs.symm⟩
      · simp [_reveal, h0, h1, h2] at h

/-- A reverted `commit` transaction has no observable effect. -/
theorem applyCommit_of_error (env : Env) (s : VRFState) (u oh : B32)
    (ex sig : Nat) (e : VRFError)
    (h : commitFn env s u oh ex sig = .error e) :
    applyCommit env s u oh ex sig = (s, []) := by
  simp [applyCommit, h]

/-- A reverted `multiReveal` transaction has no observable effect. -/
theorem applyMultiReveal_of_error (env : Env) (s : VRFState)
    (rs : List (B32 × B32)) (e : VRFError)
    (h : multiReveal env s rs = .error e) :
    applyMultiReveal env s rs = (s, [], []) := by
  simp [applyMultiReveal, h]

/-- If a prefix of the batch processes successfully and the next entry
reverts, the whole loop of `multiReveal` reverts with that error. -/
theorem revealSeq_error_of_failing_entry (env : Env) :
    ∀ (pre : List (B32 × B32)) (s s' : VRFState) (evs : List VRFEvent)
      (cbs : List (B32 × B32)) (r : B32 × B32) (post : List (B32 × B32))
      (e : VRFError),
      revealSeq env s pre = .ok (s', evs, cbs) →
      _reveal env s' r.1 r.2 = .error e →
      revealSeq env s (pre ++ r :: post) = .error e := by
  intro pre
  induction pre with
  | nil =>
      intro s s' evs cbs r post e hpre hfail
      simp only [revealSeq, Except.ok.injEq, Prod.mk.injEq] at hpre
      obtain ⟨hs, -, -⟩ := hpre
      subst hs
      simp [revealSeq, bind, Except.bind, hfail]
  | cons p ps ih =>
      intro s s' evs cbs r post e hpre hfail
      simp only [revealSeq, bind, Except.bind] at hpre
      cases h1 : _reveal env s p.1 p.2 with
      | error e1 => rw [h1] at hpre; simp at hpre
      | ok out1 =>
          rw [h1] at hpre
          obtain ⟨s1, evs1, cbs1⟩ := out1
          simp only at hpre
          cases h2 : revealSeq env s1 ps with
          | error e2 => rw [h2] at hpre; simp at hpre
          | ok out2 =>
              rw [h2] at hpre
              obtain ⟨s2, evs2, cbs2⟩ := out2
              simp only [pure, Except.pure, Except.ok.injEq, Prod.mk.injEq] at hpre
              obtain ⟨hs, -, -⟩ := hpre
              have hrec := ih s1 s' evs2 cbs2 r post e (by rw [h2, hs]) hfail
              simp [revealSeq, bind, Except.bind, h1, hrec]

end VRF

/-! ## Claim theorems: watcher and relayer -/

namespace Fetcher

/-- C3: refuted (code bug).  The spec says a cycle that handles height `h`
advances the cursor to exactly `h`, so no height is ever skipped under
catch-up lag.  The source's `_handleBlock` instead executes
`this._lastBlock = this._liveBlock`, jumping the cursor to the cached
head.  Concretely: starting from `firstBlock = 5` with the head at `10`,
the first cycle handles height `5` but leaves the cursor at `10`, and the
next cycle (head still `10`) computes `blockToHandle = 11 > 10` and idles
— heights `6`–`10` are never fetched.  This contradicts the fetcher's own
one-block-at-a-time structure (`blockToHandle = lastBlock + 1`, the
catch-up delay log, and the "Block N handled" log). -/
theorem eventFetcher_cursor_skips_heights :
    _eventFetcher ⟨some 5, none, none⟩ (some 10) (some []) =
      .handled ⟨some 5, some 10, some 10⟩ 5 [] ∧
    _eventFetcher ⟨some 5, some 10, some 10⟩ (some 10) (some []) =
      .idle ⟨some 5, some 10, some 10⟩ ∧
    (some 10 : Option Nat) ≠ some 5 := by decide

end Fetcher

namespace Listener

/-- C7 counterexample: with a pending entry whose `confirmationBlock` (5)
has been reached at block 5 and a reveal attempt that fails, the `block`
handler makes the one attempt but does **not** remove the entry — the
`delete` sits after the `await` inside the `try`, so a throwing
`revealCommit` skips it.  This refutes the claim that the entry is
removed unconditionally after one attempt. -/
theorem blockHandler_retains_failed_entry :
    blockHandler (fun _ _ => false) 5 [(1, ⟨7, 5⟩)] =
      ([(1, ⟨7, 5⟩)], [(1, 7)]) ∧
    (blockHandler (fun _ _ => false) 5 [(1, ⟨7, 5⟩)]).1 ≠ [] := by decide

/-- C7 (amended): on a block signal at height `blockNumber`, the handler
attempts exactly one reveal per entry whose `confirmationBlock` has been
reached (in iteration order), and removes an entry if and only if its
attempt succeeded; entries whose attempt failed stay in the map (and so
are retried on later blocks), and entries not yet due are untouched and
not attempted. -/
theorem blockHandler_removes_iff_success (attempt : Nat → Nat → Bool)
    (blockNumber : Nat) (m : PendingMap) :
    blockHandler attempt blockNumber m =
      (m.filter fun p =>
         !(decide (p.2.confirmationBlock ≤ blockNumber) && attempt p.1 p.2.operatorSeed),
       (m.filter fun p => decide (p.2.confirmationBlock ≤ blockNumber)).map
         fun p => (p.1, p.2.operatorSeed)) := by
  induction m with
  | nil => rfl
  | cons p rest ih =>
      obtain ⟨cid, pc⟩ := p
      by_cases hc : pc.confirmationBlock ≤ blockNumber
      · by_cases ha : attempt cid pc.operatorSeed
        · simp [blockHandler, List.filter, hc, ha, ih]
        · simp [blockHandler, List.filter, hc, ha, ih]
      · simp [blockHandler, List.filter, hc, ih]

/-- C8 counterexample: `confirmations = 3`, commit event in block `100`,
current height `102`, operator seed in the cache.  The claim's
`readyHeight` is `100 + 3 = 103 > 102`, so the claim requires a pending
entry with threshold `103` and no immediate submission; the code compares
against `event.blockNumber + (confirmations - 1) = 102` and submits the
reveal immediately, inserting nothing. -/
theorem eventHandler_early_by_one :
    (eventHandler (fun _ => some 7) 3 102 100 9 []).1 = [] ∧
    (eventHandler (fun _ => some 7) 3 102 100 9 []).2 = [(9, 7)] ∧
    102 < 100 + 3 := by decide

/-- C8 (amended): when the operator seed is in the cache and
`confirmations ≥ 1` (enforced by `listener`'s argument check), the
handler submits the reveal immediately if and only if the current height
is at least `event.blockNumber + (confirmations - 1)`; otherwise it
inserts a pending entry whose stored threshold equals that same value
`event.blockNumber + (confirmations - 1)` — one less than the contract's
`readyHeight = creationHeight + CONFIRMATIONS` when the listener is
configured with the contract's `CONFIRMATIONS`. -/
theorem eventHandler_threshold_spec (cacheGet : Nat → Option Nat)
    (confirmations blockNumber eventBlockNumber cid seed : Nat)
    (pending : PendingMap)
    (hconf : 1 ≤ confirmations) (hhit : cacheGet cid = some seed) :
    (eventBlockNumber + (confirmations - 1) ≤ blockNumber →
       eventHandler cacheGet confirmations blockNumber eventBlockNumber cid pending =
         (pending, [(cid, seed)])) ∧
    (blockNumber < eventBlockNumber + (confirmations - 1) →
       eventHandler cacheGet confirmations blockNumber eventBlockNumber cid pending =
         (setPending pending cid ⟨seed, eventBlockNumber + (confirmations - 1)⟩, [])) := by
  constructor
  · intro hle
    simp [eventHandler, hhit, hle]
  · intro hlt
    simp [eventHandler, hhit, Nat.not_le.mpr hlt, Nat.not_le.mpr]

/-- Witness for C8's amended theorem: cache hit, `confirmations = 3`,
event at block `100`; at height `102` the reveal is immediate, at height
`101` a pending entry with threshold `102` is inserted. -/
theorem eventHandler_threshold_spec_check :
    Listener.eventHandler (fun _ => some 7) 3 102 100 9 [] = ([], [(9, 7)]) ∧
    Listener.eventHandler (fun _ => some 7) 3 101 100 9 [] = ([(9, ⟨7, 102⟩)], []) :=
  ⟨(eventHandler_threshold_spec (fun _ => some 7) 3 102 100 9 7 []
      (by decide) rfl).1 (by decide),
   (eventHandler_threshold_spec (fun _ => some 7) 3 101 100 9 7 []
      (by decide) rfl).2 (by decide)⟩

/-- C10: `listener` throws
"You must specify the number of confirmations required to approve a
commit (Minimum 1 block)." when called with `confirmations = 0` (a JS
falsy check), and "You must specify a valid contract address." when the
address string fails `ethers.isAddress`; both throws happen before the
`EventFetcher` and its handlers exist (an `Except.error` result of
`listenerInit` carries no listener state).  The on-ledger constructor, by
contrast, accepts `CONFIRMATIONS = 0` without any check. -/
theorem listener_validates_args (isAddr : String → Bool) (address : String)
    (confirmations d op : Nat)
    (hvalid : ¬ (address = "" ∨ isAddr address = false)) :
    (confirmations = 0 →
       listenerInit isAddr address confirmations = .error confirmationsErrorMsg) ∧
    (∀ bad : String, isAddr bad = false →
       listenerInit isAddr bad confirmations = .error addressErrorMsg) ∧
    (VRF.deployVRF d op 0).confirmations = 0 := by
  refine ⟨fun h0 => ?_, fun bad hbad => ?_, rfl⟩
  · simp [listenerInit, hvalid, h0]
  · simp [listenerInit, hbad]

/-- Witness for C10: a concrete address predicate accepting exactly
"0xabc". -/
theorem listener_validates_args_check :
    Listener.listenerInit (fun s => s == "0xabc") "0xabc" 0 =
      .error Listener.confirmationsErrorMsg ∧
    Listener.listenerInit (fun s => s == "0xabc") "zzz" 0 =
      .error Listener.addressErrorMsg ∧
    (VRF.deployVRF 3 4 0).confirmations = 0 :=
  ⟨(listener_validates_args (fun s => s == "0xabc") "0xabc" 0 3 4 (by decide)).1 rfl,
   (listener_validates_args (fun s => s == "0xabc") "0xabc" 0 3 4 (by decide)).2.1
      "zzz" (by decide),
   (listener_validates_args (fun s => s == "0xabc") "0xabc" 0 3 4 (by decide)).2.2⟩

end Listener

/-! ## Claim theorems: contract -/

namespace VRF

/-- C1: `multiReveal` is atomic.  If the entries before `r` process
successfully but `r` itself reverts (unknown commit, reveal block not
reached, or operator-seed mismatch), the whole transaction reverts: the
`commits` mapping is unchanged and no `SeedRevealed` event or
`revealCallback` invocation of any entry is observable.  This is the EVM
rollback of the single external `multiReveal` call, whose loop propagates
the first `_reveal` revert. -/
theorem multiReveal_atomic (env : Env) (s : VRFState)
    (pre post : List (B32 × B32)) (r : B32 × B32) (s' : VRFState)
    (evs : List VRFEvent) (cbs : List (B32 × B32)) (e : VRFError)
    (hpre : revealSeq env s pre = .ok (s', evs, cbs))
    (hfail : _reveal env s' r.1 r.2 = .error e) :
    applyMultiReveal env s (pre ++ r :: post) = (s, [], []) := by
  by_cases hrole : env.sender ∈ s.operators
  · have hm : multiReveal env s (pre ++ r :: post) = .error e := by
      unfold multiReveal
      rw [if_neg (not_not_intro hrole)]
      exact revealSeq_error_of_failing_entry env pre s s' evs cbs r post e hpre hfail
    exact applyMultiReveal_of_error env s _ e hm
  · have hm : multiReveal env s (pre ++ r :: post) =
        .error (.MissingOperatorRole env.sender) := by
      unfold multiReveal
      rw [if_pos hrole]
    exact applyMultiReveal_of_error env s _ _ hm

/-- Witness for C1: a two-entry batch over `stateA` whose first entry is
a valid reveal and whose second names an unknown commit; the transaction
retains nothing. -/
theorem multiReveal_atomic_check :
    applyMultiReveal envA stateA
      [(B32.raw 100, B32.raw 2), (B32.raw 200, B32.raw 2)] = (stateA, [], []) :=
  multiReveal_atomic envA stateA [(B32.raw 100, B32.raw 2)] []
    (B32.raw 200, B32.raw 2) stateA0 [ev1009] [cb1009]
    (.CommitDoesNotExist (B32.raw 200)) (by decide) (by decide)

/-- C5: a successful `_reveal` deletes the record as the terminal
transition — afterwards `commits[commitId]` reads as the zero struct, and
any second reveal of the same id, in any later environment (including a
reentrant one issued from within `revealCallback`, which runs after the
`delete` on exactly this post-state), reverts `CommitDoesNotExist`. -/
theorem reveal_terminal_deletion (env : Env) (s : VRFState) (cid seed : B32)
    (s' : VRFState) (evs : List VRFEvent) (cbs : List (B32 × B32))
    (h : _reveal env s cid seed = .ok (s', evs, cbs)) :
    (lookupCommit s'.commits cid).commitBlock = 0 ∧
    ∀ (env2 : Env) (seed2 : B32),
      _reveal env2 s' cid seed2 = .error (.CommitDoesNotExist cid) := by
  obtain ⟨ht, -, -⟩ := reveal_ok_parts env s cid seed s' evs cbs h
  subst ht
  refine ⟨?_, fun env2 seed2 => ?_⟩
  · simp [lookup_removeCommit_self, Commit.zero]
  · simp [_reveal, lookup_removeCommit_self, Commit.zero]

/-- Witness for C5: after revealing `stateA`'s commit, its id reads as
zero and a second reveal (different environment and seed) reverts
`CommitDoesNotExist`. -/
theorem reveal_terminal_deletion_check :
    (lookupCommit stateA0.commits (B32.raw 100)).commitBlock = 0 ∧
    _reveal envB stateA0 (B32.raw 100) (B32.raw 3) =
      .error (.CommitDoesNotExist (B32.raw 100)) :=
  ⟨(reveal_terminal_deletion envA stateA (B32.raw 100) (B32.raw 2) stateA0
      [ev1009] [cb1009] (by decide)).1,
   (reveal_terminal_deletion envA stateA (B32.raw 100) (B32.raw 2) stateA0
      [ev1009] [cb1009] (by decide)).2 envB (B32.raw 3)⟩

end VRF

namespace VRF

/-- C2: a successful `_reveal` emits
`randomSeed = keccak256(abi.encodePacked(userSeed, operatorSeed,
blockhash(block.number - 1)))` built from the stored user seed, the
supplied operator seed and the hash of the immediately preceding block;
consequently two successful reveals with identical stored user seed and
identical operator seed but different previous-block hashes emit
different random seeds (injectivity of the symbolic hash). -/
theorem reveal_randomSeed_spec (env1 env2 : Env) (s1 s2 : VRFState)
    (cid1 cid2 seed1 seed2 : B32) (t1 t2 : VRFState)
    (evs1 evs2 : List VRFEvent) (cbs1 cbs2 : List (B32 × B32))
    (h1 : _reveal env1 s1 cid1 seed1 = .ok (t1, evs1, cbs1))
    (h2 : _reveal env2 s2 cid2 seed2 = .ok (t2, evs2, cbs2)) :
    evs1 = [.SeedRevealed cid1 seed1
      (B32.kec3 (lookupCommit s1.commits cid1).userSeed seed1
        (env1.blockhashOf (env1.blockNumber - 1)))] ∧
    ((lookupCommit s1.commits cid1).userSeed =
        (lookupCommit s2.commits cid2).userSeed →
     seed1 = seed2 →
     env1.blockhashOf (env1.blockNumber - 1) ≠
        env2.blockhashOf (env2.blockNumber - 1) →
     ∀ r1 r2, evs1 = [.SeedRevealed cid1 seed1 r1] →
       evs2 = [.SeedRevealed cid2 seed2 r2] → r1 ≠ r2) := by
  obtain ⟨-, hevs1, -⟩ := reveal_ok_parts env1 s1 cid1 seed1 t1 evs1 cbs1 h1
  obtain ⟨-, hevs2, -⟩ := reveal_ok_parts env2 s2 cid2 seed2 t2 evs2 cbs2 h2
  refine ⟨hevs1, fun hu hseedeq hb r1 r2 he1 he2 => ?_⟩
  have hK1 : B32.kec3 (lookupCommit s1.commits cid1).userSeed seed1
      (env1.blockhashOf (env1.blockNumber - 1)) = r1 := by
    simpa using hevs1.symm.trans he1
  have hK2 : B32.kec3 (lookupCommit s2.commits cid2).userSeed seed2
      (env2.blockhashOf (env2.blockNumber - 1)) = r2 := by
    simpa using hevs2.symm.trans he2
  subst hK1; subst hK2
  rw [hu, hseedeq]
  simp [B32.kec3.injEq, hb]

/-- Witness for C2: `stateA`'s commit revealed at height `10`
(previous block hash `raw 1009`) versus at height `20` (previous block
hash `raw 1019`), same user seed `raw 1` and operator seed `raw 2`: the
emitted random seeds differ. -/
theorem reveal_randomSeed_spec_check :
    [ev1009] = [VRFEvent.SeedRevealed (B32.raw 100) (B32.raw 2)
      (B32.kec3 (lookupCommit stateA.commits (B32.raw 100)).userSeed (B32.raw 2)
        (envA.blockhashOf (envA.blockNumber - 1)))] ∧
    B32.kec3 (B32.raw 1) (B32.raw 2) (B32.raw 1009) ≠
      B32.kec3 (B32.raw 1) (B32.raw 2) (B32.raw 1019) :=
  ⟨(reveal_randomSeed_spec envA envB stateA stateA (B32.raw 100) (B32.raw 100)
      (B32.raw 2) (B32.raw 2) stateA0 stateA0 [ev1009] [ev1019] [cb1009] [cb1019]
      (by decide) (by decide)).1,
   (reveal_randomSeed_spec envA envB stateA stateA (B32.raw 100) (B32.raw 100)
      (B32.raw 2) (B32.raw 2) stateA0 stateA0 [ev1009] [ev1019] [cb1009] [cb1019]
      (by decide) (by decide)).2 rfl rfl (by decide)
      (B32.kec3 (B32.raw 1) (B32.raw 2) (B32.raw 1009))
      (B32.kec3 (B32.raw 1) (B32.raw 2) (B32.raw 1019)) rfl rfl⟩

/-- C4: on a live record, `_reveal` reverts
`InvalidRevealBlock(commitId, commitBlock, block.number)` — the spec's
`NotYetRevealable(commitId, readyHeight, currentHeight)` — exactly when
`block.number < commitBlock`; at `block.number = commitBlock` the check
passes.  In particular, with `CONFIRMATIONS = 3` and the scenario commit
made at height `100` (stored `commitBlock = 103`), revealing at height
`102` reverts `InvalidRevealBlock(id, 103, 102)` and revealing at height
`103` (correct seed) succeeds. -/
theorem reveal_notYetRevealable_iff (env : Env) (s : VRFState)
    (cid seed : B32)
    (hlive : (lookupCommit s.commits cid).commitBlock ≠ 0) :
    (_reveal env s cid seed =
        .error (.InvalidRevealBlock cid (lookupCommit s.commits cid).commitBlock
          env.blockNumber) ↔
      env.blockNumber < (lookupCommit s.commits cid).commitBlock) ∧
    (∀ (s1 : VRFState) (evs : List VRFEvent) (cid1 : B32),
       commitFn (envScen 100) stateScen (B32.raw 1) (B32.kec1 (B32.raw 2)) 60 0 =
         .ok (s1, evs, cid1) →
       _reveal (envScen 102) s1 cid1 (B32.raw 2) =
           .error (.InvalidRevealBlock cid1 103 102) ∧
       _reveal (envScen 103) s1 cid1 (B32.raw 2) =
           .ok ({ s1 with commits := removeCommit s1.commits cid1 },
                [.SeedRevealed cid1 (B32.raw 2)
                  (B32.kec3 (B32.raw 1) (B32.raw 2) (B32.raw 1102))],
                [(cid1, B32.kec3 (B32.raw 1) (B32.raw 2) (B32.raw 1102))])) := by
  constructor
  · by_cases hb : env.blockNumber < (lookupCommit s.commits cid).commitBlock
    · simp [_reveal, hlive, hb]
    · by_cases h2 : B32.kec1 seed = (lookupCommit s.commits cid).operatorSeedHash
      · simp [_reveal, hlive, hb, h2]
      · simp [_reveal, hlive, hb, h2]
  · intro s1 evs cid1 hcommit
    have hc : commitFn (envScen 100) stateScen (B32.raw 1) (B32.kec1 (B32.raw 2)) 60 0 =
        .ok (commitScenState,
             [.SeedCommitted idScen (B32.raw 1) (B32.kec1 (B32.raw 2)) 7],
             idScen) := by decide
    rw [hc] at hcommit
    simp only [Except.ok.injEq, Prod.mk.injEq] at hcommit
    obtain ⟨hs1, -, hcid⟩ := hcommit
    subst hs1; subst hcid
    exact ⟨by decide, by decide⟩

/-- Witness for C4: the general boundary on `stateA`'s live commit
(stored block `5`, current height `10`, so the revert does not fire), and
the `confirmations = 3` scenario at heights `102` and `103`. -/
theorem reveal_notYetRevealable_iff_check :
    (_reveal envA stateA (B32.raw 100) (B32.raw 2) =
        .error (.InvalidRevealBlock (B32.raw 100) 5 10) ↔ (10 : Nat) < 5) ∧
    (_reveal (envScen 102) commitScenState idScen (B32.raw 2) =
        .error (.InvalidRevealBlock idScen 103 102) ∧
     _reveal (envScen 103) commitScenState idScen (B32.raw 2) =
        .ok ({ commitScenState with
                 commits := removeCommit commitScenState.commits idScen },
             [.SeedRevealed idScen (B32.raw 2)
               (B32.kec3 (B32.raw 1) (B32.raw 2) (B32.raw 1102))],
             [(idScen, B32.kec3 (B32.raw 1) (B32.raw 2) (B32.raw 1102))])) :=
  ⟨(reveal_notYetRevealable_iff envA stateA (B32.raw 100) (B32.raw 2)
      (by decide)).1,
   (reveal_notYetRevealable_iff envA stateA (B32.raw 100) (B32.raw 2)
      (by decide)).2 commitScenState
      [.SeedCommitted idScen (B32.raw 1) (B32.kec1 (B32.raw 2)) 7] idScen
      (by decide)⟩

end VRF

namespace VRF

/-- C6: `commit`'s revert conditions and their order.  Writing `cid` for
the computed `operatorDataHash`, the call reverts `CommitAlreadyExists`
exactly when a live record exists under `cid`; `ExpiredCommitSignature`
exactly when no such record exists and `block.timestamp > expiration`
(equality accepted); `InvalidCommitSignature` exactly when neither
earlier check fires and the recovered signer lacks the operator role; and
on any revert the transaction creates no record and emits nothing. -/
theorem commit_error_conditions (env : Env) (s : VRFState) (u oh : B32)
    (ex sig : Nat) :
    (commitFn env s u oh ex sig =
        .error (.CommitAlreadyExists (B32.kec4 (B32.kec1 u) oh env.sender ex)) ↔
      (lookupCommit s.commits (B32.kec4 (B32.kec1 u) oh env.sender ex)).commitBlock ≠ 0) ∧
    (commitFn env s u oh ex sig =
        .error (.ExpiredCommitSignature (B32.kec4 (B32.kec1 u) oh env.sender ex)) ↔
      (lookupCommit s.commits (B32.kec4 (B32.kec1 u) oh env.sender ex)).commitBlock = 0 ∧
        env.timestamp > ex) ∧
    (commitFn env s u oh ex sig =
        .error (.InvalidCommitSignature (B32.kec4 (B32.kec1 u) oh env.sender ex)) ↔
      (lookupCommit s.commits (B32.kec4 (B32.kec1 u) oh env.sender ex)).commitBlock = 0 ∧
        env.timestamp ≤ ex ∧
        env.recover (B32.ethMsg (B32.kec4 (B32.kec1 u) oh env.sender ex)) sig ∉ s.operators) ∧
    (∀ e, commitFn env s u oh ex sig = .error e →
       applyCommit env s u oh ex sig = (s, [])) := by
  refine ⟨?_, ?_, ?_, fun e he => applyCommit_of_error env s u oh ex sig e he⟩ <;>
    by_cases h1 : (lookupCommit s.commits (B32.kec4 (B32.kec1 u) oh env.sender ex)).commitBlock = 0
  case pos =>
    by_cases h2 : env.timestamp > ex
    · simp [commitFn, h1, h2]
    · by_cases h3 : env.recover (B32.ethMsg (B32.kec4 (B32.kec1 u) oh env.sender ex)) sig ∈ s.operators
      · simp [commitFn, h1, h2, h3]
      · simp [commitFn, h1, h2, h3]
  case neg => simp [commitFn, h1]
  case pos =>
    by_cases h2 : env.timestamp > ex
    · simp [commitFn, h1, h2]
    · by_cases h3 : env.recover (B32.ethMsg (B32.kec4 (B32.kec1 u) oh env.sender ex)) sig ∈ s.operators
      · simp [commitFn, h1, h2, h3, Nat.le_of_not_lt h2]
      · simp [commitFn, h1, h2, h3, Nat.le_of_not_lt h2]
  case neg => simp [commitFn, h1]
  case pos =>
    by_cases h2 : env.timestamp > ex
    · simp [commitFn, h1, h2]
    · by_cases h3 : env.recover (B32.ethMsg (B32.kec4 (B32.kec1 u) oh env.sender ex)) sig ∈ s.operators
      · simp [commitFn, h1, h2, h3, Nat.le_of_not_lt h2]
      · simp [commitFn, h1, h2, h3, Nat.le_of_not_lt h2]
  case neg => simp [commitFn, h1]

/-- Witness for C6: a commit whose signature recovers to the non-operator
address `99` on a fresh deployment reverts with `InvalidCommitSignature`
and creates nothing. -/
theorem commit_error_conditions_check :
    applyCommit envBadSig stateScen (B32.raw 1) (B32.kec1 (B32.raw 2)) 60 0 =
      (stateScen, []) :=
  (commit_error_conditions envBadSig stateScen (B32.raw 1) (B32.kec1 (B32.raw 2))
      60 0).2.2.2 (.InvalidCommitSignature idScen) (by decide)

/-- C9 counterexample: the scenario commit (raw user seed `raw 1`) emits
`SeedCommitted(commitId, userSeed, operatorSeedHash, owner)` whose second
field is the raw seed `raw 1` itself — not its hash `kec1 (raw 1)` (which
is bound only inside the commit id) — and the raw seed is stored verbatim
in the record.  This refutes the claim that the event carries the hash of
the requester's secret and that the raw secret is never stored nor
included. -/
theorem commit_event_carries_raw_seed :
    commitFn (envScen 100) stateScen (B32.raw 1) (B32.kec1 (B32.raw 2)) 60 0 =
      .ok (commitScenState,
           [.SeedCommitted idScen (B32.raw 1) (B32.kec1 (B32.raw 2)) 7],
           idScen) ∧
    (lookupCommit commitScenState.commits idScen).userSeed = B32.raw 1 ∧
    B32.raw 1 ≠ B32.kec1 (B32.raw 1) := by decide

/-- C9 (amended): a successful `commit` emits exactly one creation event,
`SeedCommitted(commitId, userSeed, operatorSeedHash, msg.sender)`, whose
second field is the raw user seed supplied to the call; the hash of that
seed is bound inside the commit id
(`keccak256(keccak256(userSeed), operatorSeedHash, msg.sender,
expiration)`), and the record stores the raw seed itself. -/
theorem commit_event_spec (env : Env) (s : VRFState) (u oh : B32)
    (ex sig : Nat) (s' : VRFState) (evs : List VRFEvent) (cid : B32)
    (h : commitFn env s u oh ex sig = .ok (s', evs, cid)) :
    evs = [.SeedCommitted cid u oh env.sender] ∧
    evs.length = 1 ∧
    cid = B32.kec4 (B32.kec1 u) oh env.sender ex ∧
    lookupCommit s'.commits cid =
      { userSeed := u, operatorSeedHash := oh, commitOwner := env.sender,
        commitBlock := (env.blockNumber + s.confirmations) % 2 ^ 96 } := by
  by_cases h1 : (lookupCommit s.commits (B32.kec4 (B32.kec1 u) oh env.sender ex)).commitBlock = 0
  · by_cases h2 : env.timestamp > ex
    · simp [commitFn, h1, h2] at h
    · by_cases h3 : env.recover (B32.ethMsg (B32.kec4 (B32.kec1 u) oh env.sender ex)) sig ∈ s.operators
      · simp only [commitFn, h1, h2, h3, not_true_eq_false, ne_eq,
          not_false_eq_true, if_true, if_false, ite_true, ite_false,
          Except.ok.injEq, Prod.mk.injEq] at h
        obtain ⟨hs, hevs, hcid⟩ := h
        subst hs; subst hcid
        refine ⟨hevs.symm, by rw [← hevs]; rfl, rfl, ?_⟩
        simp [lookup_setCommit_self]
      · simp [commitFn, h1, h2, h3] at h
  · simp [commitFn, h1] at h

/-- Witness for C9's amended theorem: the scenario commit at height `100`
(`CONFIRMATIONS = 3`). -/
theorem commit_event_spec_check :
    [VRFEvent.SeedCommitted idScen (B32.raw 1) (B32.kec1 (B32.raw 2)) 7] =
      [VRFEvent.SeedCommitted idScen (B32.raw 1) (B32.kec1 (B32.raw 2)) 7] ∧
    ([VRFEvent.SeedCommitted idScen (B32.raw 1) (B32.kec1 (B32.raw 2)) 7]).length = 1 ∧
    idScen = B32.kec4 (B32.kec1 (B32.raw 1)) (B32.kec1 (B32.raw 2)) 7 60 ∧
    lookupCommit commitScenState.commits idScen =
      { userSeed := B32.raw 1, operatorSeedHash := B32.kec1 (B32.raw 2),
        commitOwner := 7, commitBlock := 103 } :=
  commit_event_spec (envScen 100) stateScen (B32.raw 1) (B32.kec1 (B32.raw 2))
    60 0 commitScenState
    [.SeedCommitted idScen (B32.raw 1) (B32.kec1 (B32.raw 2)) 7] idScen
    (by decide)

end VRF
